import Mathlib

/-!
# Verification of `arachnado/crawler_process.py`

A shallow embedding of the orchestration layer of `ArachnadoCrawlerProcess`:
the crawl-id allocator, the job registry lookup (`get_crawler`), the pause /
resume / close operations on the orchestrator state, the status derivation
(`_get_crawler_status`), the snapshot view (`jobs` / `get_jobs`), and the
signal republishing (`_resend_signal` over `CrawlerProcessSignals` and
`STAT_SIGNALS`).

Python dicts of the job views and the dict of finished records are embedded as
a structure `JobView`; the Python `set` `_paused_jobs` is a duplicate-free
`List Nat` with `setAdd` (set.add) and `List.erase` (set.remove, which raises
`KeyError` on a missing element).  Python exceptions that the code can raise
on these paths are the constructors of `JobError`:
`KeyError("Job is not known: %s")` from `get_crawler` becomes `notFound`,
the `KeyError` of `set.remove` becomes `notPaused`, and the `AttributeError`
of `getattr(None, "crawl_id")` (a crawler whose spider is still `None`)
becomes `attrError`.
-/

/-- Spider stats, `crawler.stats.get_stats(spider)`: a mapping of counters. -/
def Stats := List (String × Nat)
deriving DecidableEq, Repr

/-- The attributes of a spider that `crawler_process.py` reads.
`stats` stands for `spider.crawler.stats.get_stats(spider)` (the back
reference through `spider.crawler` is flattened into the spider record). -/
structure Spider where
  crawl_id : Nat
  motor_job_id : String
  domain : String
  stats : Stats
deriving DecidableEq, Repr

/-- A crawler as seen by the orchestration layer: `crawler.spider` is `None`
until the engine has created the spider, and `crawler.crawling` is the flag
that `ArachnadoExecutionEngine.close_spider` sets to `False`. -/
structure Crawler where
  spider : Option Spider
  crawling : Bool
deriving DecidableEq, Repr

/-- One entry of the `jobs` view; also the shape of a finished-job record
built by `on_spider_closed` (both are Python dicts with the same keys
`id, job_id, seed, status, stats`). -/
structure JobView where
  id : Nat
  job_id : String
  seed : String
  status : String
  stats : Stats
deriving DecidableEq, Repr

/-- The exceptions the embedded operations can raise. -/
inductive JobError where
  /-- `KeyError("Job is not known: %s" % crawl_id)` raised by `get_crawler`. -/
  | notFound (crawl_id : Nat)
  /-- The `KeyError` raised by `self._paused_jobs.remove(crawl_id)` when the
  id is not in the set. -/
  | notPaused (crawl_id : Nat)
  /-- `AttributeError` from `getattr(crawler.spider, "crawl_id")` when
  `crawler.spider` is `None`. -/
  | attrError
deriving DecidableEq, Repr

/-- The orchestrator state tracked by `ArachnadoCrawlerProcess`:
`crawl_ids` is the next value of the `itertools.count(start=1)` allocator,
`crawlers` the active crawler set of the base `CrawlerProcess`,
`paused_jobs` the set `self._paused_jobs`, and `finished_jobs` the list
`self._finished_jobs` (most recent first). -/
structure CPState where
  crawl_ids : Nat
  crawlers : List Crawler
  paused_jobs : List Nat
  finished_jobs : List JobView
deriving DecidableEq, Repr

/-- Python set.add: inserting an element already present leaves the set unchanged. -/
def setAdd (x : Nat) (s : List Nat) : List Nat :=
  if x ∈ s then s else x :: s

/-- The state built by `__init__`: empty `_finished_jobs`, empty
`_paused_jobs`, no crawlers, and the class-level counter starting at 1. -/
def initialState : CPState :=
  { crawl_ids := 1, crawlers := [], paused_jobs := [], finished_jobs := [] }

/-- Embeds `get_crawler`: iterate over `self.crawlers` and return the first crawler
whose spider's `crawl_id` equals the requested id; raise
`KeyError("Job is not known: %s")` when the loop finds none.
`getattr(crawler.spider, "crawl_id")` raises `AttributeError` when
`crawler.spider` is `None`. -/
def get_crawler (crawlers : List Crawler) (crawl_id : Nat) :
    Except JobError Crawler :=
  match crawlers with
  | [] => .error (.notFound crawl_id)
  | cr :: rest =>
    match cr.spider with
    | none => .error .attrError
    | some sp =>
      if sp.crawl_id = crawl_id then .ok cr else get_crawler rest crawl_id

/-- Embeds `pause_job`: `self._paused_jobs.add(crawl_id)` happens first; then
`self.get_crawler(crawl_id).engine.pause()`.  The engine-level pause does not
touch any state tracked here, so the result is the mutated state together with
the exception `get_crawler` raises, if any.  The `add` is not rolled back when
the lookup raises. -/
def pause_job (s : CPState) (crawl_id : Nat) : CPState × Option JobError :=
  let s' := { s with paused_jobs := setAdd crawl_id s.paused_jobs }
  (s', match get_crawler s'.crawlers crawl_id with
       | .ok _ => none
       | .error e => some e)

/-- Embeds `resume_job`: `self._paused_jobs.remove(crawl_id)` happens first and
raises `KeyError` (here `notPaused`) when the id is not in the set, leaving
the state unchanged; then `self.get_crawler(crawl_id).engine.unpause()`. -/
def resume_job (s : CPState) (crawl_id : Nat) : CPState × Option JobError :=
  if crawl_id ∈ s.paused_jobs then
    let s' := { s with paused_jobs := s.paused_jobs.erase crawl_id }
    (s', match get_crawler s'.crawlers crawl_id with
         | .ok _ => none
         | .error e => some e)
  else
    (s, some (.notPaused crawl_id))

/-- Embeds `on_spider_closed(spider, reason)`: unconditionally
`self._finished_jobs.insert(0, {...})` — a record snapshotting the spider's
`crawl_id`, `motor_job_id`, `domain`, the close `reason` as status, and the
final stats. -/
def on_spider_closed (s : CPState) (spider : Spider) (reason : String) :
    CPState :=
  { s with finished_jobs :=
      { id := spider.crawl_id
        job_id := spider.motor_job_id
        seed := spider.domain
        status := reason
        stats := spider.stats } :: s.finished_jobs }

/-- Embeds `crawl(crawler_or_spidercls, ...)`: draws `next(self.crawl_ids)` into
`kwargs["crawl_id"]`, connects the signal aggregation, and hands off to the
base `CrawlerProcess.crawl`.  The base class (external) registers the crawler,
sets `crawling = True` and creates the spider from the kwargs; that hand-off
is modeled at its interface as the new crawler appearing with a spider
carrying the allocated id, the seed domain and empty stats. -/
def crawl (s : CPState) (seed : String) (job_id : String) : CPState × Nat :=
  let id := s.crawl_ids
  let sp : Spider :=
    { crawl_id := id, motor_job_id := job_id, domain := seed, stats := [] }
  ({ s with
      crawl_ids := id + 1
      crawlers := s.crawlers ++ [{ spider := some sp, crawling := true }] },
   id)

/-- Embeds `_get_crawler_status(crawler)`: `unknown` when the spider does not exist
yet, else `stopping` when `crawler.crawling` is false, else `suspended` when
`int(crawler.spider.crawl_id)` is in `self._paused_jobs`, else `crawling`. -/
def _get_crawler_status (paused_jobs : List Nat) (crawler : Crawler) :
    String :=
  match crawler.spider with
  | none => "unknown"
  | some sp =>
    if !crawler.crawling then "stopping"
    else if sp.crawl_id ∈ paused_jobs then "suspended"
    else "crawling"

/-- Embeds `get_jobs()`: the view of every crawler whose spider is not `None`. -/
def get_jobs (s : CPState) : List JobView :=
  (s.crawlers.filterMap (fun cr =>
    match cr.spider with
    | none => none
    | some sp =>
      some { id := sp.crawl_id
             job_id := sp.motor_job_id
             seed := sp.domain
             status := _get_crawler_status s.paused_jobs cr
             stats := sp.stats }))

/-- The `active_jobs` local of the `jobs` property: active views whose id
has no record in `self._finished_jobs`. -/
def jobs_active (s : CPState) : List JobView :=
  (get_jobs s).filter
    (fun job => !((s.finished_jobs.map (fun f => f.id)).contains job.id))

/-- The `jobs` property: active jobs that are not in fact finished, followed
by the finished records. -/
def jobs (s : CPState) : List JobView :=
  jobs_active s ++ s.finished_jobs

/-- Modelled from the spec: `arachnado.signals.Signal` (its module is not
part of this sources snapshot) is, per the spec's event-bus primitive and its
use in `crawler_process.py` (`Signal("agg_stats_changed", False)`,
`signal.supports_defer`), a named signal together with the flag saying
whether its dispatch is the awaitable kind. -/
structure Signal where
  name : String
  supports_defer : Bool
deriving DecidableEq, Repr

/-- The identities of the per-job signals that `_resend_signal` can receive:
the Scrapy signals of `SCRAPY_SIGNAL_NAMES` (including the monkey-patched
`spider_closing`, `engine_paused`, `engine_resumed`) and
`stats.stats_changed`. -/
inductive SpiderSignal where
  | engine_started
  | engine_stopped
  | engine_paused
  | engine_resumed
  | item_scraped
  | item_dropped
  | spider_closed
  | spider_closing
  | spider_opened
  | spider_idle
  | spider_error
  | request_scheduled
  | request_dropped
  | response_received
  | response_downloaded
  | stats_changed
deriving DecidableEq, Repr

/-- The signal `agg_stats_changed = Signal("agg_stats_changed", False)`. -/
def agg_stats_changed : Signal :=
  { name := "agg_stats_changed", supports_defer := false }

/-- The `STAT_SIGNALS` dict: `{stats.stats_changed: agg_stats_changed}`.
`none` encodes `signal not in STAT_SIGNALS`. -/
def STAT_SIGNALS : SpiderSignal → Option Signal
  | .stats_changed => some agg_stats_changed
  | _ => none

/-- Embeds `CrawlerProcessSignals.signal(spider_signal)`: the `spider_to_cp` table
built from `SCRAPY_SIGNAL_NAMES` over the class attributes of
`CrawlerProcessSignals`, with each process-level `Signal`'s `supports_defer`
flag as declared in the class body.  `stats_changed` is not a key of the
table (`none` encodes the `KeyError` of the dict lookup). -/
def CrawlerProcessSignals.signal : SpiderSignal → Option Signal
  | .engine_started => some { name := "engine_started", supports_defer := true }
  | .engine_stopped => some { name := "engine_stopped", supports_defer := true }
  | .engine_paused => some { name := "engine_paused", supports_defer := false }
  | .engine_resumed => some { name := "engine_resumed", supports_defer := false }
  | .spider_opened => some { name := "spider_opened", supports_defer := true }
  | .spider_idle => some { name := "spider_idle", supports_defer := false }
  | .spider_closed => some { name := "spider_closed", supports_defer := true }
  | .spider_closing => some { name := "spider_closing", supports_defer := false }
  | .spider_error => some { name := "spider_error", supports_defer := false }
  | .request_scheduled =>
    some { name := "request_scheduled", supports_defer := false }
  | .request_dropped =>
    some { name := "request_dropped", supports_defer := false }
  | .response_received =>
    some { name := "response_received", supports_defer := false }
  | .response_downloaded =>
    some { name := "response_downloaded", supports_defer := false }
  | .item_scraped => some { name := "item_scraped", supports_defer := true }
  | .item_dropped => some { name := "item_dropped", supports_defer := true }
  | .stats_changed => none

/-- The object in the `sender` keyword of a delivered per-job signal: either
a crawler (the job, for the lifecycle signals) or an `EventedStatsCollector`
whose `.crawler` attribute is its owning job.  Jobs are referenced by
identity here. -/
inductive Sender where
  | crawlerObj (job : Nat)
  | statsCollector (crawler : Nat)
deriving DecidableEq, Repr

/-- The `.crawler` attribute of a sender: present on a stats collector,
absent (`AttributeError`) on a crawler object. -/
def Sender.crawlerAttr : Sender → Option Sender
  | .crawlerObj _ => none
  | .statsCollector c => some (.crawlerObj c)

/-- The kwargs of a per-job signal delivery: the firing signal, the `sender`
keyword, and the remaining payload fields. -/
structure SpiderEvent where
  signal : SpiderSignal
  sender : Sender
  rest : List (String × String)
deriving DecidableEq, Repr

/-- The kwargs republished on the process-wide `SignalManager`: the canonical
signal, the `crawler` keyword (the object stored in place of `sender`), and
the remaining payload fields. -/
structure CanonEvent where
  signal : Signal
  crawler : Sender
  rest : List (String × String)
deriving DecidableEq, Repr

/-- How `_resend_signal` hands the canonical kwargs to the process-wide bus:
`send_catch_log_deferred` (awaitable, its deferred is returned to the caller)
or `send_catch_log` (fire-and-forget; listener exceptions are caught and
logged by the signal manager). -/
inductive Dispatch where
  | deferredSend (kwargs : CanonEvent)
  | catchLogSend (kwargs : CanonEvent)
deriving DecidableEq, Repr

/-- Embeds `_resend_signal(**kwargs)`: when the firing signal is in `STAT_SIGNALS`,
the canonical signal is its image and `kwargs["crawler"]` becomes
`kwargs.pop("sender").crawler`; otherwise the canonical signal is
`CrawlerProcessSignals.signal(signal)` and `kwargs["crawler"]` becomes the
popped sender itself.  The republish is deferred exactly when the canonical
signal `supports_defer`.  `none` encodes the exceptional paths
(`AttributeError` on `.crawler`, `KeyError` on the table lookup). -/
def _resend_signal (kwargs : SpiderEvent) : Option Dispatch :=
  match STAT_SIGNALS kwargs.signal with
  | some signal =>
    match kwargs.sender.crawlerAttr with
    | none => none
    | some crawler =>
      let out : CanonEvent :=
        { signal := signal, crawler := crawler, rest := kwargs.rest }
      some (if signal.supports_defer then .deferredSend out
            else .catchLogSend out)
  | none =>
    match CrawlerProcessSignals.signal kwargs.signal with
    | none => none
    | some signal =>
      let out : CanonEvent :=
        { signal := signal, crawler := kwargs.sender, rest := kwargs.rest }
      some (if signal.supports_defer then .deferredSend out
            else .catchLogSend out)

/-- The kwargs a dispatch delivers. -/
def Dispatch.kwargs : Dispatch → CanonEvent
  | .deferredSend e => e
  | .catchLogSend e => e

/-- An operation invoked on the orchestrator. `close` is the delivery of the
canonical `spider_closed` event for a spider, which runs the connected
`on_spider_closed` handler. -/
inductive Op where
  | start (seed : String) (job_id : String)
  | pause (crawl_id : Nat)
  | resume (crawl_id : Nat)
  | close (spider : Spider) (reason : String)
deriving DecidableEq, Repr

/-- One operation applied to the state; `start` returns the allocated id. -/
def step (s : CPState) : Op → CPState × Option Nat
  | .start seed job_id =>
    let (s', id) := crawl s seed job_id
    (s', some id)
  | .pause crawl_id => ((pause_job s crawl_id).1, none)
  | .resume crawl_id => ((resume_job s crawl_id).1, none)
  | .close spider reason => (on_spider_closed s spider reason, none)

/-- Run a sequence of operations, collecting the ids `start` returned. -/
def run (s : CPState) : List Op → CPState × List Nat
  | [] => (s, [])
  | op :: ops =>
    ((run (step s op).1 ops).1,
     (step s op).2.toList ++ (run (step s op).1 ops).2)

/-! ## Helper lemmas -/

lemma mem_setAdd_self (x : Nat) (s : List Nat) : x ∈ setAdd x s := by
  unfold setAdd
  split <;> simp [*]

lemma get_crawler_notFound (crawlers : List Crawler) (crawl_id : Nat)
    (h : ∀ cr ∈ crawlers, ∃ sp, cr.spider = some sp ∧ sp.crawl_id ≠ crawl_id) :
    get_crawler crawlers crawl_id = .error (.notFound crawl_id) := by
  induction crawlers with
  | nil => rfl
  | cons cr rest ih =>
    obtain ⟨sp, hsp, hne⟩ := h cr (by simp)
    have hrest := ih (fun c hc => h c (by simp [hc]))
    simp [get_crawler, hsp, hne, hrest]

/-! ## C2: status derivation -/

/-- C2: `_get_crawler_status` is first-match-wins in the order
unknown / stopping / suspended / crawling; in particular a job that is both
in the suspended set and has `crawling = false` reports `stopping`, never
`suspended`. -/
theorem crawler_status_cases (paused_jobs : List Nat) (crawler : Crawler) :
    (crawler.spider = none →
      _get_crawler_status paused_jobs crawler = "unknown") ∧
    (∀ sp, crawler.spider = some sp → crawler.crawling = false →
      _get_crawler_status paused_jobs crawler = "stopping") ∧
    (∀ sp, crawler.spider = some sp → crawler.crawling = false →
      sp.crawl_id ∈ paused_jobs →
      _get_crawler_status paused_jobs crawler ≠ "suspended") ∧
    (∀ sp, crawler.spider = some sp → crawler.crawling = true →
      sp.crawl_id ∈ paused_jobs →
      _get_crawler_status paused_jobs crawler = "suspended") ∧
    (∀ sp, crawler.spider = some sp → crawler.crawling = true →
      sp.crawl_id ∉ paused_jobs →
      _get_crawler_status paused_jobs crawler = "crawling") := by
  obtain ⟨spider, crawling⟩ := crawler
  refine ⟨?_, ?_, ?_, ?_, ?_⟩
  · intro h
    subst h
    rfl
  · intro sp h hc
    subst h; subst hc
    rfl
  · intro sp h hc _
    subst h; subst hc
    simp [_get_crawler_status]
  · intro sp h hc hm
    subst h; subst hc
    simp [_get_crawler_status, hm]
  · intro sp h hc hm
    subst h; subst hc
    simp [_get_crawler_status, hm]

theorem crawler_status_cases_witness :
    _get_crawler_status [1] ⟨some ⟨1, "j", "d", []⟩, false⟩ = "stopping" ∧
    _get_crawler_status [1] ⟨some ⟨1, "j", "d", []⟩, false⟩ ≠ "suspended" :=
  ⟨(crawler_status_cases [1] ⟨some ⟨1, "j", "d", []⟩, false⟩).2.1
      ⟨1, "j", "d", []⟩ rfl rfl,
   (crawler_status_cases [1] ⟨some ⟨1, "j", "d", []⟩, false⟩).2.2.1
      ⟨1, "j", "d", []⟩ rfl rfl (by decide)⟩

/-! ## C3: the archive handler is not idempotent -/

/-- C3 counterexample: delivering the spider-closed event twice for the same
spider leaves two records with its id in the archive, and the second
invocation does change the archive. -/
theorem on_spider_closed_twice_duplicates :
    ((on_spider_closed
        (on_spider_closed initialState ⟨1, "j1", "example.com", []⟩ "finished")
        ⟨1, "j1", "example.com", []⟩ "finished").finished_jobs.filter
      (fun f => f.id = 1)).length = 2 ∧
    (on_spider_closed
        (on_spider_closed initialState ⟨1, "j1", "example.com", []⟩ "finished")
        ⟨1, "j1", "example.com", []⟩ "finished").finished_jobs ≠
      (on_spider_closed initialState ⟨1, "j1", "example.com", []⟩
        "finished").finished_jobs := by
  constructor
  · rfl
  · decide

/-- C3 amended: `on_spider_closed` unconditionally prepends a fresh record,
so each delivery of the spider-closed event for an id grows the number of
records with that id by one (k deliveries leave k records), rather than
being idempotent. -/
theorem on_spider_closed_prepends (s : CPState) (spider : Spider)
    (reason : String) :
    ((on_spider_closed s spider reason).finished_jobs.filter
        (fun f => f.id = spider.crawl_id)).length =
      (s.finished_jobs.filter (fun f => f.id = spider.crawl_id)).length + 1 ∧
    (on_spider_closed s spider reason).finished_jobs.length =
      s.finished_jobs.length + 1 := by
  constructor
  · simp [on_spider_closed, List.filter_cons]
  · simp [on_spider_closed]

/-! ## C4: no suspended-set cleanup at terminal closure -/

/-- C4 counterexample: start a job, pause it (successfully), then deliver its
close event.  In the reached state the job has a finished record, yet its id
is still a member of the suspended set. -/
theorem suspended_set_dangles_after_close :
    ((run initialState
        [.start "example.com" "j1", .pause 1,
         .close ⟨1, "j1", "example.com", []⟩ "finished"]).1.finished_jobs.map
      (fun f => f.id)).contains 1 = true ∧
    1 ∈ (run initialState
        [.start "example.com" "j1", .pause 1,
         .close ⟨1, "j1", "example.com", []⟩ "finished"]).1.paused_jobs := by
  decide

/-- C4 amended: `on_spider_closed` never touches the suspended set, so a job
closed while paused keeps its id in the set (a dangling entry), instead of
the id being removed at terminal closure. -/
theorem on_spider_closed_keeps_paused (s : CPState) (spider : Spider)
    (reason : String) :
    (on_spider_closed s spider reason).paused_jobs = s.paused_jobs ∧
    (spider.crawl_id ∈ s.paused_jobs →
      spider.crawl_id ∈ (on_spider_closed s spider reason).paused_jobs) := by
  exact ⟨rfl, fun h => h⟩

theorem on_spider_closed_keeps_paused_witness :
    (1 : Nat) ∈ (on_spider_closed ⟨2, [], [1], []⟩ ⟨1, "j", "d", []⟩
      "finished").paused_jobs :=
  (on_spider_closed_keeps_paused ⟨2, [], [1], []⟩ ⟨1, "j", "d", []⟩
    "finished").2 (by decide)

/-! ## C10: pause on an unknown id mutates the suspended set -/

/-- C10: `pause_job` on an id with no matching active job raises the
NotFound error, but the id was added to the suspended set before the lookup
and remains there after the failed call. -/
theorem pause_job_not_atomic (s : CPState) (crawl_id : Nat)
    (h : ∀ cr ∈ s.crawlers,
      ∃ sp, cr.spider = some sp ∧ sp.crawl_id ≠ crawl_id) :
    (pause_job s crawl_id).2 = some (JobError.notFound crawl_id) ∧
    crawl_id ∈ (pause_job s crawl_id).1.paused_jobs := by
  constructor
  · show (match get_crawler s.crawlers crawl_id with
          | .ok _ => none
          | .error e => some e) = some (JobError.notFound crawl_id)
    rw [get_crawler_notFound s.crawlers crawl_id h]
  · exact mem_setAdd_self crawl_id s.paused_jobs

theorem pause_job_not_atomic_witness :
    (pause_job initialState 7).2 = some (JobError.notFound 7) ∧
    7 ∈ (pause_job initialState 7).1.paused_jobs :=
  pause_job_not_atomic initialState 7 (by simp [initialState])

/-! ## C5: the jobs snapshot partitions -/

/-- C5: the `jobs` view is the active views whose ids have no finished
record, in order, followed by all finished records; no id occurs in both
partitions, and an active-looking view whose id already has a finished
record is suppressed from the active partition. -/
theorem jobs_partition (s : CPState) :
    jobs s = jobs_active s ++ s.finished_jobs ∧
    (∀ a ∈ jobs_active s, ∀ f ∈ s.finished_jobs, a.id ≠ f.id) ∧
    (∀ j ∈ get_jobs s, (∃ f ∈ s.finished_jobs, f.id = j.id) →
      j ∉ jobs_active s) := by
  refine ⟨rfl, ?_, ?_⟩
  · intro a ha f hf
    rw [jobs_active, List.mem_filter] at ha
    obtain ⟨-, hpred⟩ := ha
    intro heq
    have : a.id ∈ s.finished_jobs.map (fun f => f.id) :=
      List.mem_map.mpr ⟨f, hf, heq.symm⟩
    simp [List.contains_iff_exists_mem_beq] at hpred
    exact hpred f hf heq.symm
  · intro j hj hex hmem
    rw [jobs_active, List.mem_filter] at hmem
    obtain ⟨-, hpred⟩ := hmem
    obtain ⟨f, hf, hfid⟩ := hex
    simp [List.contains_iff_exists_mem_beq] at hpred
    exact hpred f hf hfid

theorem jobs_partition_witness :
    (⟨1, "a", "d1", "crawling", []⟩ : JobView) ∉ jobs_active
      ⟨3,
       [⟨some ⟨1, "a", "d1", []⟩, true⟩, ⟨some ⟨2, "b", "d2", []⟩, true⟩],
       [],
       [⟨1, "a", "d1", "finished", []⟩]⟩ :=
  (jobs_partition
      ⟨3,
       [⟨some ⟨1, "a", "d1", []⟩, true⟩, ⟨some ⟨2, "b", "d2", []⟩, true⟩],
       [],
       [⟨1, "a", "d1", "finished", []⟩]⟩).2.2
    ⟨1, "a", "d1", "crawling", []⟩ (by decide)
    ⟨⟨1, "a", "d1", "finished", []⟩, by decide, by decide⟩

/-! ## C6: resume checks the suspended set before the lookup -/

/-- C6 counterexample: after a single `start` (id 1, never paused), id 2
references no known job (`get_crawler` would raise NotFound), yet
`resume_job 2` fails with the set-removal error (NotPaused), not NotFound. -/
theorem resume_unknown_id_not_notFound :
    get_crawler (run initialState [.start "example.com" "j1"]).1.crawlers 2 =
      Except.error (JobError.notFound 2) ∧
    (resume_job (run initialState [.start "example.com" "j1"]).1 2).2 =
      some (JobError.notPaused 2) :=
  ⟨rfl, rfl⟩

/-- C6 amended: `resume_job` consults the suspended set first: an id not in
the set fails with NotPaused (even when the id references no known job) and
leaves the state unchanged; an id in the set is removed from the set before
the lookup / engine unpause, after which an unknown id fails with NotFound
(with the removal already performed) and a known id succeeds. -/
theorem resume_job_order (s : CPState) (crawl_id : Nat) :
    (crawl_id ∉ s.paused_jobs →
      resume_job s crawl_id = (s, some (JobError.notPaused crawl_id))) ∧
    (crawl_id ∈ s.paused_jobs →
      (resume_job s crawl_id).1.paused_jobs =
        s.paused_jobs.erase crawl_id ∧
      (resume_job s crawl_id).2 =
        (match get_crawler s.crawlers crawl_id with
         | .ok _ => none
         | .error e => some e)) := by
  constructor
  · intro h
    simp [resume_job, h]
  · intro h
    refine ⟨?_, ?_⟩ <;> simp [resume_job, h]

theorem resume_job_order_witness :
    (resume_job ⟨1, [], [5], []⟩ 5).1.paused_jobs = [] ∧
    (resume_job ⟨1, [], [5], []⟩ 5).2 = some (JobError.notFound 5) := by
  have h := (resume_job_order ⟨1, [], [5], []⟩ 5).2 (by decide)
  refine ⟨?_, ?_⟩
  · rw [h.1]
    decide
  · rw [h.2]
    decide

/-! ## C9: lookup resolves duplicates by first match -/

/-- C9 counterexample: with two distinct crawlers both matching id 1,
`get_crawler` silently returns the first match instead of failing. -/
theorem get_crawler_silent_first_match :
    get_crawler
        [⟨some ⟨1, "a", "d1", []⟩, true⟩, ⟨some ⟨1, "b", "d2", []⟩, true⟩]
        1 =
      Except.ok ⟨some ⟨1, "a", "d1", []⟩, true⟩ ∧
    (⟨some ⟨1, "a", "d1", []⟩, true⟩ : Crawler) ≠
      ⟨some ⟨1, "b", "d2", []⟩, true⟩ ∧
    ((⟨some ⟨1, "b", "d2", []⟩, true⟩ : Crawler).spider.map
      (fun sp => sp.crawl_id)) = some 1 := by
  refine ⟨rfl, by decide, rfl⟩

/-- C9 amended: `get_crawler` returns the first crawler in iteration order
whose spider's `crawl_id` equals the requested id (later matches, duplicates
included, are silently ignored), and fails with NotFound when no crawler
matches and every crawler has a spider. -/
theorem get_crawler_spec (crawl_id : Nat) :
    (∀ crawlers : List Crawler,
      (∀ c ∈ crawlers, ∃ sp, c.spider = some sp ∧ sp.crawl_id ≠ crawl_id) →
      get_crawler crawlers crawl_id = .error (.notFound crawl_id)) ∧
    (∀ (pre : List Crawler) (cr : Crawler) (post : List Crawler),
      (∀ c ∈ pre, ∃ sp, c.spider = some sp ∧ sp.crawl_id ≠ crawl_id) →
      (∃ sp, cr.spider = some sp ∧ sp.crawl_id = crawl_id) →
      get_crawler (pre ++ cr :: post) crawl_id = .ok cr) := by
  constructor
  · exact fun crawlers h => get_crawler_notFound crawlers crawl_id h
  · intro pre cr post hpre hcr
    induction pre with
    | nil =>
      obtain ⟨sp, hsp, hid⟩ := hcr
      simp [get_crawler, hsp, hid]
    | cons c pre ih =>
      obtain ⟨sp, hsp, hne⟩ := hpre c (by simp)
      have := ih (fun c' hc' => hpre c' (by simp [hc']))
      simp [get_crawler, hsp, hne, this]

theorem get_crawler_spec_witness :
    get_crawler [⟨some ⟨3, "x", "d", []⟩, true⟩] 9 =
      Except.error (JobError.notFound 9) ∧
    get_crawler
        [⟨some ⟨3, "x", "d", []⟩, true⟩, ⟨some ⟨9, "y", "e", []⟩, true⟩] 9 =
      Except.ok ⟨some ⟨9, "y", "e", []⟩, true⟩ :=
  ⟨(get_crawler_spec 9).1 [⟨some ⟨3, "x", "d", []⟩, true⟩]
      (by intro c hc
          rw [List.mem_singleton] at hc
          subst hc
          exact ⟨⟨3, "x", "d", []⟩, rfl, by decide⟩),
   (get_crawler_spec 9).2 [⟨some ⟨3, "x", "d", []⟩, true⟩]
      ⟨some ⟨9, "y", "e", []⟩, true⟩ []
      (by intro c hc
          rw [List.mem_singleton] at hc
          subst hc
          exact ⟨⟨3, "x", "d", []⟩, rfl, by decide⟩)
      ⟨⟨9, "y", "e", []⟩, rfl, rfl⟩⟩

/-! ## C7: the canonical event carries the job back-reference -/

/-- C7: the republished kwargs carry the job back-reference in the `crawler`
field in place of the popped `sender`: the sending job itself for the
lifecycle signals, and the job owning the stats collector (one indirection
through `sender.crawler`) for the stats-change signal; the remaining payload
fields are passed through unchanged. -/
theorem resend_signal_back_reference (kwargs : SpiderEvent) :
    (∀ job, kwargs.sender = .crawlerObj job →
      kwargs.signal ≠ .stats_changed →
      (_resend_signal kwargs).map
          (fun d => (d.kwargs.crawler, d.kwargs.rest)) =
        some (.crawlerObj job, kwargs.rest)) ∧
    (∀ job, kwargs.sender = .statsCollector job →
      kwargs.signal = .stats_changed →
      (_resend_signal kwargs).map
          (fun d => (d.kwargs.crawler, d.kwargs.rest)) =
        some (.crawlerObj job, kwargs.rest)) := by
  obtain ⟨sig, snd, rest⟩ := kwargs
  constructor
  · intro job hs hne
    subst hs
    cases sig <;> first
      | exact absurd rfl hne
      | rfl
  · intro job hs he
    subst hs
    subst he
    rfl

theorem resend_signal_back_reference_witness :
    (_resend_signal
        ⟨.spider_closed, .crawlerObj 4, [("reason", "finished")]⟩).map
        (fun d => (d.kwargs.crawler, d.kwargs.rest)) =
      some (Sender.crawlerObj 4, [("reason", "finished")]) ∧
    (_resend_signal ⟨.stats_changed, .statsCollector 4, [("k", "v")]⟩).map
        (fun d => (d.kwargs.crawler, d.kwargs.rest)) =
      some (Sender.crawlerObj 4, [("k", "v")]) :=
  ⟨(resend_signal_back_reference
      ⟨.spider_closed, .crawlerObj 4, [("reason", "finished")]⟩).1 4 rfl
      (by decide),
   (resend_signal_back_reference
      ⟨.stats_changed, .statsCollector 4, [("k", "v")]⟩).2 4 rfl rfl⟩

/-! ## C8: the republish is deferred exactly for the awaitable signals -/

/-- C8: whenever `_resend_signal` republishes, it uses the awaitable
`send_catch_log_deferred` (whose deferred it returns) exactly when the
canonical signal `supports_defer`, and the fire-and-forget `send_catch_log`
(listener exceptions caught and logged) exactly otherwise. -/
theorem resend_signal_defer_kind (kwargs : SpiderEvent) (d : Dispatch)
    (h : _resend_signal kwargs = some d) :
    d = (if d.kwargs.signal.supports_defer then
           Dispatch.deferredSend d.kwargs
         else
           Dispatch.catchLogSend d.kwargs) := by
  unfold _resend_signal at h
  cases hst : STAT_SIGNALS kwargs.signal with
  | some sig =>
    rw [hst] at h
    cases hca : kwargs.sender.crawlerAttr with
    | none =>
      rw [hca] at h
      exact absurd h (by simp)
    | some c =>
      rw [hca] at h
      simp only [Option.some.injEq] at h
      subst h
      by_cases hd : sig.supports_defer <;> simp [hd, Dispatch.kwargs]
  | none =>
    rw [hst] at h
    cases hcp : CrawlerProcessSignals.signal kwargs.signal with
    | none =>
      rw [hcp] at h
      exact absurd h (by simp)
    | some sig =>
      rw [hcp] at h
      simp only [Option.some.injEq] at h
      subst h
      by_cases hd : sig.supports_defer <;> simp [hd, Dispatch.kwargs]

theorem resend_signal_defer_kind_witness :
    (Dispatch.deferredSend
        ⟨⟨"spider_closed", true⟩, .crawlerObj 4, []⟩ : Dispatch) =
      (if (Dispatch.deferredSend
            (⟨⟨"spider_closed", true⟩, .crawlerObj 4, []⟩ :
              CanonEvent)).kwargs.signal.supports_defer then
         Dispatch.deferredSend
           (Dispatch.deferredSend
             (⟨⟨"spider_closed", true⟩, .crawlerObj 4, []⟩ :
               CanonEvent)).kwargs
       else
         Dispatch.catchLogSend
           (Dispatch.deferredSend
             (⟨⟨"spider_closed", true⟩, .crawlerObj 4, []⟩ :
               CanonEvent)).kwargs) :=
  resend_signal_defer_kind ⟨.spider_closed, .crawlerObj 4, []⟩
    (Dispatch.deferredSend ⟨⟨"spider_closed", true⟩, .crawlerObj 4, []⟩) rfl

/-! ## C1: allocated ids are strictly increasing and never reused -/

lemma step_counter_le (s : CPState) (op : Op) :
    s.crawl_ids ≤ (step s op).1.crawl_ids := by
  cases op with
  | start seed job_id => exact Nat.le_succ _
  | pause crawl_id => exact le_refl _
  | resume crawl_id =>
    show s.crawl_ids ≤ (resume_job s crawl_id).1.crawl_ids
    unfold resume_job
    split <;> exact le_refl _
  | close spider reason => exact le_refl _

lemma step_start_id (s : CPState) (op : Op) (id : Nat)
    (h : (step s op).2 = some id) :
    id = s.crawl_ids ∧ (step s op).1.crawl_ids = s.crawl_ids + 1 := by
  cases op with
  | start seed job_id =>
    refine ⟨?_, rfl⟩
    have : some s.crawl_ids = some id := h
    exact (Option.some.injEq _ _ ▸ this).symm
  | pause crawl_id => exact absurd h (by simp [step])
  | resume crawl_id => exact absurd h (by simp [step])
  | close spider reason => exact absurd h (by simp [step])

lemma run_ids_lower_bound (ops : List Op) :
    ∀ (s : CPState), ∀ id ∈ (run s ops).2, s.crawl_ids ≤ id := by
  induction ops with
  | nil =>
    intro s id h
    simp [run] at h
  | cons op ops ih =>
    intro s id h
    rw [run, List.mem_append] at h
    rcases h with h | h
    · cases hr : (step s op).2 with
      | none => simp [hr] at h
      | some j =>
        rw [hr] at h
        simp [Option.toList] at h
        subst h
        exact le_of_eq (step_start_id s op _ hr).1.symm
    · exact le_trans (step_counter_le s op) (ih (step s op).1 id h)

lemma run_ids_pairwise (ops : List Op) :
    ∀ (s : CPState), List.Pairwise (· < ·) (run s ops).2 := by
  induction ops with
  | nil =>
    intro s
    simp [run]
  | cons op ops ih =>
    intro s
    rw [run]
    cases hr : (step s op).2 with
    | none => exact ih (step s op).1
    | some id =>
      show List.Pairwise (· < ·) (id :: (run (step s op).1 ops).2)
      refine List.pairwise_cons.mpr ⟨?_, ih (step s op).1⟩
      intro j hj
      obtain ⟨hid, hcnt⟩ := step_start_id s op id hr
      have hle := run_ids_lower_bound ops (step s op).1 j hj
      omega

/-- C1: along every sequence of operations from the initial state, the ids
handed out by the `itertools.count` allocator at `start` are strictly
increasing positive integers — each new id exceeds every earlier one and no
id repeats, archived jobs included. -/
theorem crawl_ids_strictly_increasing (ops : List Op) :
    List.Pairwise (· < ·) (run initialState ops).2 ∧
    ∀ id ∈ (run initialState ops).2, 0 < id := by
  refine ⟨run_ids_pairwise ops initialState, ?_⟩
  intro id h
  have h1 := run_ids_lower_bound ops initialState id h
  have : initialState.crawl_ids = 1 := rfl
  omega

theorem crawl_ids_strictly_increasing_witness :
    List.Pairwise (· < ·)
      (run initialState [.start "a" "j1", .start "b" "j2"]).2 ∧
    0 < 1 :=
  ⟨(crawl_ids_strictly_increasing [.start "a" "j1", .start "b" "j2"]).1,
   (crawl_ids_strictly_increasing [.start "a" "j1", .start "b" "j2"]).2 1
     (by decide)⟩
